import Mathlib

/-!
Verification development for the dataUrnas-br ingestion pipeline.

Shallow embedding of the pipeline components of the repository:
the retrying HTTP client (src/dataurnas/downloader/client.py), the
download orchestrator (src/dataurnas/downloader/manager.py), the
TSE API navigator (src/dataurnas/downloader/tse_api.py), the ballot
(BU) decoder (src/dataurnas/parsers/bu.py, asn1_helper.py), the
DuckDB persistence layer (src/dataurnas/database/duckdb_store.py)
and the snapshot logic of scripts/download_and_build.py.

Network and filesystem effects are embedded trace-style: each call
takes the sequence of outcomes the environment produces (one outcome
per HTTP attempt, one success flag per filesystem step) and the
definitions compute the exact control flow of the Python source over
that trace.
-/

namespace DataUrnas

/-- config.py MAX_RETRIES. -/
def MAX_RETRIES : Nat := 10

/-- State of the file at a download destination path: either a
completely written file or a partially written one (a stream that was
interrupted before the final chunk), each with its size in bytes. -/
inductive DFile
  | full (size : Nat)
  | frag (size : Nat)
deriving DecidableEq, Repr

/-- Size in bytes, as returned by Path.stat().st_size. -/
def DFile.size : DFile → Nat
  | .full n => n
  | .frag n => n

/-- Whether the destination holds a partially written file. -/
def isFrag : Option DFile → Bool
  | some (.frag _) => true
  | _ => false

/-- Python dest.exists() and dest.stat().st_size > 0, the
skip-existing check of TSEClient.download_file. -/
def existsNonzero : Option DFile → Bool
  | some f => decide (0 < f.size)
  | none => false

/-- Outcome of one HTTP attempt, as classified by the except clauses
of TSEClient.fetch_json and TSEClient.download_file:
404, an HTTP error status c other than 404 raised by
raise_for_status (c = 429 is the rate-limited case), an
httpx.ConnectError or httpx.ReadTimeout (for downloads, carrying the
number of bytes already streamed to the destination when the error
hit, or none when the connection failed before the destination file
was opened), any other exception, or success with the size of the
downloaded body. -/
inductive Attempt
  | notFound
  | badStatus (code : Nat)
  | netErr (written : Option Nat)
  | excOther (written : Option Nat)
  | ok (size : Nat)
deriving DecidableEq, Repr

/-- Result of one call to TSEClient.download_file.
result: some b when the call returned b, none when an exception
propagated out of the call.  dest: the file at the destination path
after the call.  states: every state the destination path took during
the call, in order (each open-truncate, each interrupted prefix, each
unlink, each completed write).  waits: the (attempt index, seconds)
pairs slept by the backoff.  attemptsUsed: HTTP attempts issued. -/
structure DlRun where
  result : Option Bool
  dest : Option DFile
  states : List (Option DFile)
  waits : List (Nat × Nat)
  attemptsUsed : Nat
deriving DecidableEq, Repr

/-- The retry loop of TSEClient.download_file (client.py lines
111-149), one step per attempt index k, with fuel = remaining
attempts out of MAX_RETRIES.  Mirrors the source branch by branch:
404 returns False at once; raise_for_status errors other than 429
unlink the destination and retry without sleeping, returning False
when the attempt budget is exhausted; 429 sleeps 2 ^ k (uncapped) and
retries without touching the destination; ConnectError/ReadTimeout
unlink the destination and sleep min (2 ^ k) 30; any other exception
unlinks the destination and re-raises; success leaves the completed
file at the destination.  Writing streams straight to the destination
path (open(dest, "wb")), so the trace records the truncated and
interrupted prefixes the destination holds while a body streams. -/
def dlLoop (att : Nat → Attempt) : Nat → Nat → Option DFile → DlRun
  | 0, _, dest => ⟨some false, dest, [], [], 0⟩
  | fuel + 1, k, dest =>
    match att k with
    | .notFound => ⟨some false, dest, [], [], 1⟩
    | .ok n => ⟨some true, some (.full n), [some (.frag 0), some (.full n)], [], 1⟩
    | .badStatus c =>
      if c = 429 then
        let rest := dlLoop att fuel (k + 1) dest
        ⟨rest.result, rest.dest, rest.states, (k, 2 ^ k) :: rest.waits, rest.attemptsUsed + 1⟩
      else
        if k = MAX_RETRIES - 1 then
          ⟨some false, none, [none], [], 1⟩
        else
          let rest := dlLoop att fuel (k + 1) none
          ⟨rest.result, rest.dest, none :: rest.states, rest.waits, rest.attemptsUsed + 1⟩
    | .netErr w =>
      let pre := match w with
        | some b => [some (.frag 0), some (.frag b)]
        | none => []
      let rest := dlLoop att fuel (k + 1) none
      ⟨rest.result, rest.dest, pre ++ none :: rest.states,
        (k, min (2 ^ k) 30) :: rest.waits, rest.attemptsUsed + 1⟩
    | .excOther w =>
      let pre := match w with
        | some b => [some (.frag 0), some (.frag b)]
        | none => []
      ⟨none, none, pre ++ [none], [], 1⟩

/-- TSEClient.download_file with skip_existing (default True in the
source): when the destination already exists with non-zero size the
call returns True without issuing any attempt; otherwise it runs the
retry loop from attempt 0. -/
def downloadFile (skipExisting : Bool) (destInit : Option DFile) (att : Nat → Attempt) : DlRun :=
  if skipExisting && existsNonzero destInit then
    ⟨some true, destInit, [], [], 0⟩
  else
    dlLoop att MAX_RETRIES 0 destInit

/-- Result of one call to TSEClient.fetch_json.
result: some (some v) when JSON v was returned, some none when the
call returned None (404 or exhausted retries), none when an exception
propagated. -/
structure FetchRun where
  result : Option (Option Nat)
  waits : List (Nat × Nat)
  attemptsUsed : Nat
deriving DecidableEq, Repr

/-- The retry loop of TSEClient.fetch_json (client.py lines 70-96):
404 returns None at once; 429 sleeps 2 ^ k (uncapped) and retries;
other HTTP error statuses retry without sleeping and re-raise on the
last attempt; ConnectError/ReadTimeout sleep min (2 ^ k) 30 and
retry; any other exception propagates; falling out of the loop
returns None. -/
def fjLoop (att : Nat → Attempt) : Nat → Nat → FetchRun
  | 0, _ => ⟨some none, [], 0⟩
  | fuel + 1, k =>
    match att k with
    | .notFound => ⟨some none, [], 1⟩
    | .ok v => ⟨some (some v), [], 1⟩
    | .badStatus c =>
      if c = 429 then
        let rest := fjLoop att fuel (k + 1)
        ⟨rest.result, (k, 2 ^ k) :: rest.waits, rest.attemptsUsed + 1⟩
      else
        if k = MAX_RETRIES - 1 then
          ⟨none, [], 1⟩
        else
          let rest := fjLoop att fuel (k + 1)
          ⟨rest.result, rest.waits, rest.attemptsUsed + 1⟩
    | .netErr _ =>
      let rest := fjLoop att fuel (k + 1)
      ⟨rest.result, (k, min (2 ^ k) 30) :: rest.waits, rest.attemptsUsed + 1⟩
    | .excOther _ => ⟨none, [], 1⟩

/-- TSEClient.fetch_json, MAX_RETRIES attempts from attempt 0. -/
def fetchJson (att : Nat → Attempt) : FetchRun :=
  fjLoop att MAX_RETRIES 0

/-! ## Download orchestrator (manager.py, tse_api.py) -/

/-- Suffix test on strings, the semantics of Python str.endswith. -/
def strEndsWith (s suf : String) : Bool :=
  List.isSuffixOf suf.toList s.toList

/-- Substring test, the semantics of the Python expression
ft in filename. -/
def strContainsSub (hay needle : String) : Bool :=
  (List.range (hay.toList.length + 1)).any
    (fun i => List.isPrefixOf needle.toList (hay.toList.drop i))

/-- One file the orchestrator is asked to download: its name (an
entry of the arquivos list of the manifest), the file already at the
derived destination path, and the per-attempt outcomes its download
would produce.  The destination path itself is derived
deterministically from the section identity (DownloadManager
dot section dir) and plays no further role in the stats. -/
structure FileJob where
  name : String
  destInit : Option DFile
  att : Nat → Attempt

/-- One raw entry of the hashes list of the aux.json manifest of a
section, before TSEApi.get_section_meta filters it: the content hash
and the files it lists (nmarq for V1, arq for V2, already flattened
to their names). -/
structure RawEntry where
  hash : String
  files : List FileJob

/-- What fetching the aux.json manifest of one section produced:
the fetch raised an exception, the fetch returned None or a JSON
without a hashes key (missing), or it returned the hashes list. -/
inductive ManifestFetch
  | raises
  | missing
  | entries (es : List RawEntry)

/-- TSEApi.get_section_meta (tse_api.py lines 56-97): none models the
call raising; a missing or empty manifest yields the empty list; a
hashes list is filtered, discarding every entry whose hash is the
string "0" or empty, and the surviving entries are returned in
order. -/
def getSectionMeta : ManifestFetch → Option (List RawEntry)
  | .raises => none
  | .missing => some []
  | .entries es => some (es.filter (fun e => !(e.hash == "0" || e.hash == "")))

/-- The stats dict of DownloadManager. -/
structure Stats where
  downloaded : Nat
  skipped : Nat
  errors : Nat
  sectionsProcessed : Nat
deriving DecidableEq, Repr

/-- Pointwise addition of stats counters. -/
def Stats.add (a b : Stats) : Stats :=
  ⟨a.downloaded + b.downloaded, a.skipped + b.skipped,
    a.errors + b.errors, a.sectionsProcessed + b.sectionsProcessed⟩

/-- The results dict of DownloadManager.download_section_files. -/
structure FileResults where
  ok : Nat
  skip : Nat
  fail : Nat
deriving DecidableEq, Repr

/-- The file-type filter of download_section_files: with no filter
(or, as in Python, a falsy empty list) every file matches; otherwise
a file matches when its name ends with one of the types or, failing
that, contains one of them as a substring. -/
def matchesTypes (fts : Option (List String)) (name : String) : Bool :=
  match fts with
  | none => true
  | some [] => true
  | some l => l.any (fun ft => strEndsWith name ft) || l.any (fun ft => strContainsSub name ft)

/-- DownloadManager.download_section_files (manager.py lines 47-84):
iterate the files of one urna, skipping names rejected by the
file-type filter; download each matching file (skip_existing True);
a True return counts ok when the destination exists afterwards and
skip otherwise, a False return counts fail; an exception propagates
(none), losing the partial results dict of this urna. -/
def downloadSectionFiles (fts : Option (List String)) : List FileJob → FileResults → Option FileResults
  | [], acc => some acc
  | f :: rest, acc =>
    if matchesTypes fts f.name then
      let run := downloadFile true f.destInit f.att
      match run.result with
      | some true =>
        if run.dest.isSome then
          downloadSectionFiles fts rest ⟨acc.ok + 1, acc.skip, acc.fail⟩
        else
          downloadSectionFiles fts rest ⟨acc.ok, acc.skip + 1, acc.fail⟩
      | some false => downloadSectionFiles fts rest ⟨acc.ok, acc.skip, acc.fail + 1⟩
      | none => none
    else
      downloadSectionFiles fts rest acc

/-- One section as the orchestrator sees it: what its manifest fetch
produces.  The per-section completion callback can itself raise, but
_process_one_section swallows callback errors with an inner
try/except after sections_processed is already incremented, so the
callback never affects the stats and is not modelled. -/
structure SectionSpec where
  manifest : ManifestFetch

/-- The urna loop inside DownloadManager._process_one_section
(manager.py lines 102-108): for each urna of the section, run
download_section_files and add its ok/skip/fail to
downloaded/skipped/errors.  Returns the updated stats and whether the
loop completed without an exception; on an exception the outer
except adds exactly one error. -/
def urnaFold (fts : Option (List String)) : List RawEntry → Stats → Stats × Bool
  | [], st => (st, true)
  | u :: rest, st =>
    match downloadSectionFiles fts u.files ⟨0, 0, 0⟩ with
    | some r => urnaFold fts rest (st.add ⟨r.ok, r.skip, r.fail, 0⟩)
    | none => (⟨st.downloaded, st.skipped, st.errors + 1, st.sectionsProcessed⟩, false)

/-- DownloadManager._process_one_section (manager.py lines 86-138):
fetch the manifest of the section; a raising fetch is caught by the
outer except and counted as one error; otherwise every urna of the
filtered manifest is downloaded and, when no exception interrupted
the loop, sections_processed is incremented. -/
def processOneSection (fts : Option (List String)) (st : Stats) (sec : SectionSpec) : Stats :=
  match getSectionMeta sec.manifest with
  | none => ⟨st.downloaded, st.skipped, st.errors + 1, st.sectionsProcessed⟩
  | some urnas =>
    match urnaFold fts urnas st with
    | (st2, true) => ⟨st2.downloaded, st2.skipped, st2.errors, st2.sectionsProcessed + 1⟩
    | (st2, false) => st2

/-- DownloadManager.download_state (manager.py lines 140-207) over
the enumerated section list (after the optional municipality filter
and sampling have produced it), starting from the zeroed stats of a
fresh manager.  The 500-section batching and asyncio.gather collapse
to a fold for the final stats: each concurrent section task only adds
to the shared counters, so the totals are the sum of the per-section
contributions in any order. -/
def downloadState (fts : Option (List String)) (secs : List SectionSpec) : Stats :=
  secs.foldl (processOneSection fts) ⟨0, 0, 0, 0⟩

/-- Whether an attempt outcome is a ConnectError/ReadTimeout. -/
def Attempt.isNetErr : Attempt → Bool
  | .netErr _ => true
  | _ => false

/-- The stats contribution of one urna of files. -/
def fileStats (r : FileResults) : Stats :=
  ⟨r.ok, r.skip, r.fail, 0⟩

/-- Sum of the stats contributions of a list of urnas whose
download_section_files calls returned the results given by rs. -/
def sumFileStats (us : List RawEntry) (rs : RawEntry → FileResults) : Stats :=
  (us.map fun v => fileStats (rs v)).foldl Stats.add ⟨0, 0, 0, 0⟩

/-! ## Ballot decoder (parsers/bu.py, parsers/asn1_helper.py) -/

/-- Dynamic values produced by the asn1tools BER decoder as consumed
by BUParser: Python ints, strings, byte strings, dicts, 2-tuples
(how asn1tools renders ASN.1 CHOICE values), and lists. -/
inductive AsnValue
  | int (n : Int)
  | str (s : String)
  | bytes (bs : List Nat)
  | dict (fields : List (String × AsnValue))
  | tup (a b : AsnValue)
  | arr (vs : List AsnValue)

/-- Python d.get(k): the value at key k when the receiver is a dict
holding it, none otherwise. -/
def asnGet : AsnValue → String → Option AsnValue
  | .dict fs, k => fs.lookup k
  | _, _ => none

/-- Python d.get(k, dflt). -/
def asnGetD (v : AsnValue) (k : String) (dflt : AsnValue) : AsnValue :=
  (asnGet v k).getD dflt

/-- Python truthiness of a decoded value (empty dict, empty list,
empty string, empty bytes and zero are falsy; tuples from CHOICE
values are always 2-tuples, hence truthy). -/
def asnFalsy : AsnValue → Bool
  | .int n => n == 0
  | .str s => s == ""
  | .bytes bs => bs.isEmpty
  | .dict fs => fs.isEmpty
  | .arr vs => vs.isEmpty
  | .tup _ _ => false

/-- The integer carried by a value the wire schema types as an
ASN.1 INTEGER (0 for anything else, matching the zero defaults the
decoder applies to absent fields). -/
def asnInt : AsnValue → Int
  | .int n => n
  | _ => 0

/-- The elements of a value the wire schema types as a SEQUENCE OF
(empty for anything else, matching the decoder defaults). -/
def asnArr : AsnValue → List AsnValue
  | .arr vs => vs
  | _ => []

/-- Python str() of a decoded scalar, as applied by _build_bu to
codigoCarga and tipoUrna values. -/
def asnToStr : AsnValue → String
  | .str s => s
  | .int n => toString n
  | _ => ""

/-- models.py TipoVoto. -/
inductive TipoVoto
  | nominal
  | branco
  | nulo
  | legenda
  | cargoSemCandidato
deriving DecidableEq, Repr

/-- The Python enum member value, as persisted by the store. -/
def TipoVoto.value : TipoVoto → String
  | .nominal => "nominal"
  | .branco => "branco"
  | .nulo => "nulo"
  | .legenda => "legenda"
  | .cargoSemCandidato => "cargoSemCandidato"

/-- models.py Fase. -/
inductive Fase
  | simulado
  | oficial
  | treinamento
deriving DecidableEq, Repr

/-- models.py SpecVersion: the two schema generations. -/
inductive SpecVersion
  | v1
  | v2
deriving DecidableEq, Repr

/-- asn1_helper.detect_spec_version (asn1_helper.py lines 63-77),
over the file name: .dat/.vsc suffixes mean V2; the 2022 suffixes
mean V1; otherwise a -bu. or -rdv. or -vota. infix means V2; the fallback
is V1. -/
def detectSpecVersion (name : String) : SpecVersion :=
  if strEndsWith name ".dat" || strEndsWith name ".vsc" then .v2
  else if strEndsWith name ".bu" || strEndsWith name ".rdv" || strEndsWith name ".logjez"
      || strEndsWith name ".imgbu" || strEndsWith name ".vscmr" then .v1
  else if strContainsSub name "-bu." || strContainsSub name "-rdv."
      || strContainsSub name "-vota." then .v2
  else .v1

/-- bu.py _CARGO_NAME_MAP lookup with default 0. -/
def cargoNameCode (s : String) : Int :=
  if s = "presidente" then 1
  else if s = "vicePresidente" then 2
  else if s = "governador" then 3
  else if s = "viceGovernador" then 4
  else if s = "senador" then 5
  else if s = "deputadoFederal" then 6
  else if s = "deputadoEstadual" then 7
  else if s = "deputadoDistrital" then 8
  else if s = "primeiroSuplenteSenador" then 9
  else if s = "segundoSuplenteSenador" then 10
  else if s = "prefeito" then 11
  else if s = "vicePrefeito" then 12
  else if s = "vereador" then 13
  else 0

/-- config.py CARGOS lookup, with the f-string fallback of bu.py
line 219. -/
def cargoName (c : Int) : String :=
  if c = 1 then "Presidente"
  else if c = 3 then "Governador"
  else if c = 5 then "Senador"
  else if c = 6 then "Deputado Federal"
  else if c = 7 then "Deputado Estadual"
  else if c = 11 then "Prefeito"
  else if c = 13 then "Vereador"
  else "Cargo " ++ toString c

/-- bu.py _TIPO_VOTO_MAP.get(tipo_raw, TipoVoto.NOMINAL): the five
symbolic names and the numeric codes 1-5 map to their vote kinds;
every other value falls back to NOMINAL. -/
def tipoVotoMapGet : AsnValue → TipoVoto
  | .str s =>
    if s = "nominal" then .nominal
    else if s = "branco" then .branco
    else if s = "nulo" then .nulo
    else if s = "legenda" then .legenda
    else if s = "cargoSemCandidato" then .cargoSemCandidato
    else .nominal
  | .int n =>
    if n = 1 then .nominal
    else if n = 2 then .branco
    else if n = 3 then .nulo
    else if n = 4 then .legenda
    else if n = 5 then .cargoSemCandidato
    else .nominal
  | _ => .nominal

/-- Whether a value is a key of _TIPO_VOTO_MAP (one of the five
symbolic names or the numeric codes 1-5). -/
def isKnownTipoVoto : AsnValue → Bool
  | .str s =>
    s = "nominal" || s = "branco" || s = "nulo" || s = "legenda" || s = "cargoSemCandidato"
  | .int n => n = 1 || n = 2 || n = 3 || n = 4 || n = 5
  | _ => false

/-- The tuple unwrap applied to tipoVoto (bu.py lines 197-198):
a 2-tuple yields its first component when that is a string and its
second component otherwise; a non-tuple passes through. -/
def unwrapChoiceTag : AsnValue → AsnValue
  | .tup a b =>
    match a with
    | .str s => .str s
    | _ => b
  | v => v

/-- models.py VotoTupla as built by bu.py lines 205-214. -/
structure VotoTupla where
  tipoVoto : TipoVoto
  quantidade : Int
  codigoVotavel : Option AsnValue
  partido : Option AsnValue
  hashVal : Option AsnValue
  ordemHash : Option AsnValue

/-- The body of the votosVotaveis loop of _parse_resultado_eleicao
(bu.py lines 195-214): unwrap the tipoVoto tag (default the string
"nominal"), map it through _TIPO_VOTO_MAP with NOMINAL fallback, and
read quantity and candidate identification with their defaults. -/
def parseVotoTupla (vv : AsnValue) : VotoTupla :=
  let tipoRaw := unwrapChoiceTag (asnGetD vv "tipoVoto" (.str "nominal"))
  let identRaw := asnGetD vv "identificacaoVotavel" (.dict [])
  let identVotavel := if asnFalsy identRaw then AsnValue.dict [] else identRaw
  { tipoVoto := tipoVotoMapGet tipoRaw
    quantidade := asnInt (asnGetD vv "quantidadeVotos" (.int 0))
    codigoVotavel := asnGet identVotavel "codigo"
    partido := asnGet identVotavel "partido"
    hashVal := asnGet vv "hash"
    ordemHash := asnGet vv "ordemGeracaoHash" }

/-- models.py ResultadoCargo. -/
structure ResultadoCargo where
  codigoCargo : Int
  nomeCargo : String
  comparecimento : Int
  votos : List VotoTupla

/-- One totaisVotosCargo block (bu.py lines 181-223): decode the
tagged-union office code (a symbolic name goes through
_CARGO_NAME_MAP with default 0; the absent-field default tuple
(None, 0) yields 0), then the vote tuples. -/
def parseResultadoCargo (comparecimento : Int) (totais : AsnValue) : ResultadoCargo :=
  let codigoCargo : Int :=
    match asnGet totais "codigoCargo" with
    | none => 0
    | some (.tup _ b) =>
      match b with
      | .str s => cargoNameCode s
      | bv => asnInt bv
    | some v => asnInt v
  { codigoCargo := codigoCargo
    nomeCargo := cargoName codigoCargo
    comparecimento := comparecimento
    votos := (asnArr (asnGetD totais "votosVotaveis" (.arr []))).map parseVotoTupla }

/-- models.py ResultadoEleicao. -/
structure ResultadoEleicao where
  idEleicao : Int
  eleitoresAptos : Int
  eleitoresAptosSecao : Option AsnValue
  eleitoresAptosTTE : Option AsnValue
  resultados : List ResultadoCargo
  ultimoHash : Option AsnValue
  assinaturaUltimoHash : Option AsnValue

/-- BUParser._parse_resultado_eleicao (bu.py lines 175-237): for each
resultadosVotacao block, one ResultadoCargo per totaisVotosCargo
entry, carrying that block's qtdComparecimento; spec_version is
accepted but unused, as in the source. -/
def parseResultadoEleicao (_sv : SpecVersion) (res : AsnValue) : ResultadoEleicao :=
  let resultadosCargo :=
    ((asnArr (asnGetD res "resultadosVotacao" (.arr []))).map fun resVotacao =>
      (asnArr (asnGetD resVotacao "totaisVotosCargo" (.arr []))).map
        (parseResultadoCargo (asnInt (asnGetD resVotacao "qtdComparecimento" (.int 0))))).flatten
  { idEleicao := asnInt (asnGetD res "idEleicao" (.int 0))
    eleitoresAptos := asnInt (asnGetD res "qtdEleitoresAptos" (.int 0))
    eleitoresAptosSecao := asnGet res "qtdEleitoresAptosSecao"
    eleitoresAptosTTE := asnGet res "qtdEleitoresAptosTTE"
    resultados := resultadosCargo
    ultimoHash := asnGet res "ultimoHashVotosVotavel"
    assinaturaUltimoHash := asnGet res "assinaturaUltimoHashVotosVotavel" }

/-- models.py BoletimUrna as built by _build_bu.  Fields the parser
passes through untyped stay AsnValue; counters the wire schema types
as INTEGER are extracted as Int; numeroSerie and modeloUrna are never
assigned by the parser and stay none. -/
structure BoletimUrna where
  uf : String
  municipio : AsnValue
  zona : AsnValue
  secao : AsnValue
  localVotacao : Option AsnValue
  modeloUrna : Option AsnValue
  numeroSerie : Option AsnValue
  numeroInterno : Option AsnValue
  codigoCarga : Option String
  tipoUrna : Option String
  tipoArquivo : Option AsnValue
  versaoVotacao : Option AsnValue
  fase : Fase
  specVersion : SpecVersion
  dataHoraEmissao : Option AsnValue
  horaAbertura : Option AsnValue
  horaEncerramento : Option AsnValue
  qtdEleitoresLibCodigo : Int
  qtdEleitoresCompBiometrico : Int
  resultadosPorEleicao : List ResultadoEleicao
  historicoCorrespondencias : Option AsnValue

/-- BUParser._build_bu (bu.py lines 84-173), field by field:
identificacao unwrap, municipioZona block, the urna block guarded by
truthiness (correspondenciaResultado carga, tipoUrna and tipoArquivo
tag unwraps, versaoVotacao), the fase fallback chain with OFICIAL as
the ValueError fallback, the dadosSecaoSA unwrap, and the
resultadosVotacaoPorEleicao list. -/
def buildBU (envelope bu : AsnValue) (sv : SpecVersion) : BoletimUrna :=
  let identData :=
    match asnGet envelope "identificacao" with
    | none => AsnValue.dict []
    | some (.tup _ b) => b
    | some v => v
  let mz := asnGetD identData "municipioZona" (.dict [])
  let u1 := asnGetD bu "urna" (.dict [])
  let urnaData := if asnFalsy u1 then asnGetD envelope "urna" (.dict []) else u1
  let corr := asnGetD urnaData "correspondenciaResultado" (.dict [])
  let carga := asnGetD corr "carga" (.dict [])
  let codigoCarga : Option String :=
    if asnFalsy urnaData then none
    else if asnFalsy corr then none
    else if asnFalsy carga then none
    else some (asnToStr (asnGetD carga "codigoCarga" (.str "")))
  let numeroInterno : Option AsnValue :=
    if asnFalsy urnaData then none
    else if asnFalsy corr then none
    else if asnFalsy carga then none
    else asnGet carga "numeroInternoUrna"
  let tipoUrna : Option String :=
    if asnFalsy urnaData then none
    else
      match asnGet urnaData "tipoUrna" with
      | some (.tup a b) =>
        some (match a with
          | .str s => s
          | _ => asnToStr b)
      | some v => if asnFalsy v then none else some (asnToStr v)
      | none => none
  let tipoArquivo : Option AsnValue :=
    if asnFalsy urnaData then none
    else
      match asnGet urnaData "tipoArquivo" with
      | some (.tup a _) => some a
      | some v => if asnFalsy v then none else some (.str (asnToStr v))
      | none => none
  let versaoVotacao : Option AsnValue :=
    if asnFalsy urnaData then none else asnGet urnaData "versaoVotacao"
  let faseRaw := (asnGet bu "fase").getD ((asnGet envelope "fase").getD (.int 2))
  let faseVal :=
    match faseRaw with
    | .tup _ b => b
    | v => v
  let fase : Fase :=
    match faseVal with
    | .int 1 => .simulado
    | .int 2 => .oficial
    | .int 3 => .treinamento
    | _ => .oficial
  let dadosSaRaw :=
    match asnGet bu "dadosSecaoSA" with
    | some (.tup _ b) => b
    | some v => if asnFalsy v then AsnValue.dict [] else v
    | none => AsnValue.dict []
  let dadosSa :=
    match dadosSaRaw with
    | .dict fs => AsnValue.dict fs
    | _ => AsnValue.dict []
  let uf : String :=
    match asnGet identData "uf" with
    | some (.str s) => s
    | _ => ""
  { uf := uf
    municipio := asnGetD mz "municipio" (.int 0)
    zona := asnGetD mz "zona" (.int 0)
    secao := asnGetD identData "secao" (.int 0)
    localVotacao := asnGet identData "localVotacao"
    modeloUrna := none
    numeroSerie := none
    numeroInterno := numeroInterno
    codigoCarga := codigoCarga
    tipoUrna := tipoUrna
    tipoArquivo := tipoArquivo
    versaoVotacao := versaoVotacao
    fase := fase
    specVersion := sv
    dataHoraEmissao := asnGet bu "dataHoraEmissao"
    horaAbertura := asnGet dadosSa "dataHoraAbertura"
    horaEncerramento := asnGet dadosSa "dataHoraEncerramento"
    qtdEleitoresLibCodigo := asnInt (asnGetD bu "qtdEleitoresLibCodigo" (.int 0))
    qtdEleitoresCompBiometrico := asnInt (asnGetD bu "qtdEleitoresCompBiometrico" (.int 0))
    resultadosPorEleicao :=
      (asnArr (asnGetD bu "resultadosVotacaoPorEleicao" (.arr []))).map
        (parseResultadoEleicao sv)
    historicoCorrespondencias := asnGet bu "historicoCorrespondencias" }

/-- One tag-length-value unit: first byte the tag, second byte the
length (short form), followed by that many content bytes. -/
def parseTLV (bs : List Nat) : Option (Nat × List Nat) :=
  match bs with
  | tag :: len :: rest => if len ≤ rest.length then some (tag, rest.take len) else none
  | _ => none

/-- Modelled from the spec: decode_envelope (asn1_helper.py) drives
the external asn1tools BER codec with the ASN.1 schema files under
spec/v1 and spec/v2, which are not part of src/.  Per the spec the
wire format is a nested tag-length-value encoding — an outer
envelope whose conteudo payload is itself a second encoded message
(double-decode) — and unknown or absent optional fields must default
to zero or empty rather than fail.  The model parses the outer TLV,
exposes its payload as the conteudo field, requires the payload to
parse as a TLV itself, and returns the inner message as a dict whose
absent fields take their defaults downstream; like the codec it is a
deterministic function of the input bytes and the schema version. -/
def decodeEnvelope (raw : List Nat) (_sv : SpecVersion) : Option (AsnValue × AsnValue) :=
  match parseTLV raw with
  | none => none
  | some (_, conteudo) =>
    match parseTLV conteudo with
    | none => none
    | some _ => some (.dict [("conteudo", .bytes conteudo)], .dict [])

/-- BUParser.parse (bu.py lines 72-82) over the name and bytes of a
ballot file: detect the schema generation from the file name, decode
the envelope and its inner message, and build the BoletimUrna; a
decode failure (DecodeError) is none. -/
def parse (fileName : String) (raw : List Nat) : Option BoletimUrna :=
  let sv := detectSpecVersion fileName
  (decodeEnvelope raw sv).map fun p => buildBU p.1 p.2 sv

/-! ## DuckDB store (database/duckdb_store.py, scripts) -/

/-- One row of the secoes table, in the column order of the schema
and of the INSERT OR REPLACE of _process_section.  Percentages the
source computes with Python float arithmetic are modelled with exact
rationals. -/
structure SecaoRow where
  id : String
  turno : Int
  uf : String
  regiao : String
  municipio : String
  zona : String
  secao : String
  modelo : Option String
  tipoUrna : Option String
  versaoSw : Option AsnValue
  fusoOffset : Int
  emissao : Option AsnValue
  eleitoresAptos : Int
  comparecimento : Int
  libCodigo : Int
  compBiometrico : Int
  pctBio : Option ℚ
  pctAbs : Option ℚ
  horaAbertura : Option String
  horaEncerramento : Option String
  duracaoMin : Option Int
  reboots : Int
  errosLog : Int
  alertasMesario : Int
  votosLog : Int
  substituicoes : Int
  isReserva : Bool
  hasIssues : Bool
  nIssues : Int

/-- One row of the votos table. -/
structure VotoRow where
  secaoId : String
  eleicaoId : Int
  cargo : String
  codigoCargo : Int
  tipoVoto : String
  codigoCandidato : Option AsnValue
  partido : Option AsnValue
  quantidade : Int

/-- One row of the totais_cargo table. -/
structure TotaisRow where
  secaoId : String
  eleicaoId : Int
  cargo : String
  codigoCargo : Int
  comparecimento : Int
  nominais : Int
  brancos : Int
  nulos : Int
  legenda : Int
  total : Int

/-- One row of the issues table; id comes from the issue_seq
sequence. -/
structure IssueRow where
  id : Nat
  secaoId : String
  codigo : String
  severidade : String
  descricao : String
  baseLegal : Option String
  detalhes : Option String

/-- The four tables of the store plus the issue_seq sequence
counter (nextval returns issueSeq + 1).  SQL tables are modelled as
lists of rows. -/
structure Store where
  secoes : List SecaoRow
  votos : List VotoRow
  issues : List IssueRow
  totais : List TotaisRow
  issueSeq : Nat

/-- INSERT OR REPLACE INTO secoes, keyed by the primary key id: the
rows holding the same id are replaced by the new row. -/
def upsertSecao (rows : List SecaoRow) (r : SecaoRow) : List SecaoRow :=
  (rows.filter fun s => s.id != r.id) ++ [r]

/-- The per-office accumulators of the vote loop (duckdb_store.py
lines 327-352 and rebuild_parallel.py lines 123-139). -/
structure VoteTotals where
  nominais : Int
  brancos : Int
  nulos : Int
  legenda : Int
deriving DecidableEq, Repr

/-- Pointwise addition of the accumulators. -/
def VoteTotals.add (a b : VoteTotals) : VoteTotals :=
  ⟨a.nominais + b.nominais, a.brancos + b.brancos, a.nulos + b.nulos, a.legenda + b.legenda⟩

/-- One iteration of the vote loop: the quantity joins the
accumulator selected by the tipo_voto enum value; any other value
(there is none among TipoVoto members, but the dispatch in the
source is by string) leaves the accumulators unchanged. -/
def voteTotalsStep (acc : VoteTotals) (v : VotoTupla) : VoteTotals :=
  let tipo := v.tipoVoto.value
  if tipo = "nominal" then { acc with nominais := acc.nominais + v.quantidade }
  else if tipo = "branco" then { acc with brancos := acc.brancos + v.quantidade }
  else if tipo = "nulo" then { acc with nulos := acc.nulos + v.quantidade }
  else if tipo = "legenda" then { acc with legenda := acc.legenda + v.quantidade }
  else acc

/-- The per-office totals of a vote-tuple list. -/
def cargoVoteTotals (votos : List VotoTupla) : VoteTotals :=
  votos.foldl voteTotalsStep ⟨0, 0, 0, 0⟩

/-- The votos rows of one office (the INSERT INTO votos of the
loop). -/
def votoRowsOfCargo (sid : String) (eleicaoId : Int) (cargo : ResultadoCargo) : List VotoRow :=
  cargo.votos.map fun v =>
    ⟨sid, eleicaoId, cargo.nomeCargo, cargo.codigoCargo, v.tipoVoto.value,
      v.codigoVotavel, v.partido, v.quantidade⟩

/-- The totais_cargo row of one office. -/
def totaisRowOfCargo (sid : String) (eleicaoId : Int) (cargo : ResultadoCargo) : TotaisRow :=
  let t := cargoVoteTotals cargo.votos
  ⟨sid, eleicaoId, cargo.nomeCargo, cargo.codigoCargo, cargo.comparecimento,
    t.nominais, t.brancos, t.nulos, t.legenda,
    t.nominais + t.brancos + t.nulos + t.legenda⟩

/-- All votos rows of a decoded ballot record. -/
def votoRowsOf (sid : String) (bu : BoletimUrna) : List VotoRow :=
  (bu.resultadosPorEleicao.map fun el =>
    (el.resultados.map (votoRowsOfCargo sid el.idEleicao)).flatten).flatten

/-- All totais_cargo rows of a decoded ballot record. -/
def totaisRowsOf (sid : String) (bu : BoletimUrna) : List TotaisRow :=
  (bu.resultadosPorEleicao.map fun el =>
    el.resultados.map (totaisRowOfCargo sid el.idEleicao)).flatten

/-- The log-event collaborator data for one section (external
interface; zeros when the log file is absent). -/
structure LogEvents where
  reboots : Int
  erros : Int
  alertasMesario : Int
  votosComputados : Int
  substituicoes : Int

/-- The log-timing collaborator data for one section. -/
structure LogTiming where
  horaAbertura : Option String
  horaEncerramento : Option String
  duracaoMin : Option Int

/-- One issue as consumed by the store inserts. -/
structure IssueData where
  codigo : String
  severidade : String
  descricao : String
  baseLegal : Option String
  detalhes : Option String

/-- The fields of the BatchAnalyzer._analyze_section result dict
that _process_section reads: the path-derived identity, the turno
derived from the file name, the decoded ballot (None when the parse
raised, in which case the bu dict and the derived tipo_urna and
versao_sw are all None too), the equipment model from the
signature/log collaborators, the log collaborator data and the
issues. -/
structure AnalysisResult where
  uf : String
  municipio : String
  zona : String
  secao : String
  turno : Int
  buObj : Option BoletimUrna
  modelo : Option String
  logTiming : Option LogTiming
  logEvents : Option LogEvents
  issues : List IssueData

/-- The SectionId of a section: the f-string
turno T / uf / municipio / zona / secao of _process_section line
256. -/
def secaoIdOf (a : AnalysisResult) : String :=
  toString a.turno ++ "T/" ++ a.uf ++ "/" ++ a.municipio ++ "/" ++ a.zona ++ "/" ++ a.secao

/-- config.py REGIOES inverted into the _UF_REGIAO lookup of
duckdb_store.py, with the "desconhecida" default. -/
def ufRegiao (uf : String) : String :=
  if ["ac", "am", "ap", "pa", "ro", "rr", "to"].contains uf then "norte"
  else if ["al", "ba", "ce", "ma", "pb", "pe", "pi", "rn", "se"].contains uf then "nordeste"
  else if ["df", "go", "ms", "mt"].contains uf then "centro_oeste"
  else if ["es", "mg", "rj", "sp"].contains uf then "sudeste"
  else if ["pr", "rs", "sc"].contains uf then "sul"
  else "desconhecida"

/-- config.py TIMEZONE_OFFSETS lookup with default 0. -/
def fusoOffsetOf (uf : String) : Int :=
  if uf = "ac" then -2
  else if ["am", "mt", "ms", "ro", "rr"].contains uf then -1
  else 0

/-- Python round(q, 2) modelled on exact rationals. -/
def round2 (q : ℚ) : ℚ :=
  (round (q * 100) : ℤ) / 100

/-- The eleitores_aptos of _process_section lines 265-270: the aptos
of the first eleicao, 0 when there is none. -/
def aptosOf (bu : BoletimUrna) : Int :=
  match bu.resultadosPorEleicao with
  | [] => 0
  | el :: _ => el.eleitoresAptos

/-- The comparecimento of _process_section lines 271-275: the
largest comparecimento over every office of every eleicao. -/
def maxComparecimento (bu : BoletimUrna) : Int :=
  bu.resultadosPorEleicao.foldl
    (fun m el => el.resultados.foldl
      (fun m2 c => if c.comparecimento > m2 then c.comparecimento else m2) m) 0

/-- The secoes row built by _process_section lines 254-308 from one
analysis result. -/
def secaoRowOf (a : AnalysisResult) : SecaoRow :=
  let sid := secaoIdOf a
  let aptos : Int := match a.buObj with | some bu => aptosOf bu | none => 0
  let comp : Int := match a.buObj with | some bu => maxComparecimento bu | none => 0
  let libCodigo : Int := match a.buObj with | some bu => bu.qtdEleitoresLibCodigo | none => 0
  let compBio : Int := match a.buObj with | some bu => bu.qtdEleitoresCompBiometrico | none => 0
  let totalBio := libCodigo + compBio
  let pctBio : Option ℚ :=
    if totalBio > 0 then some (round2 ((compBio : ℚ) / (totalBio : ℚ) * 100)) else none
  let pctAbs : Option ℚ :=
    if aptos > 0 then some (round2 (((aptos : ℚ) - (comp : ℚ)) / (aptos : ℚ) * 100)) else none
  let tipoUrna : Option String := match a.buObj with | some bu => bu.tipoUrna | none => none
  { id := sid
    turno := a.turno
    uf := a.uf
    regiao := ufRegiao a.uf.toLower
    municipio := a.municipio
    zona := a.zona
    secao := a.secao
    modelo := a.modelo
    tipoUrna := tipoUrna
    versaoSw := a.buObj.bind fun bu => bu.versaoVotacao
    fusoOffset := fusoOffsetOf a.uf.toLower
    emissao := a.buObj.bind fun bu => bu.dataHoraEmissao
    eleitoresAptos := aptos
    comparecimento := comp
    libCodigo := libCodigo
    compBiometrico := compBio
    pctBio := pctBio
    pctAbs := pctAbs
    horaAbertura := match a.logTiming with | some t => t.horaAbertura | none => none
    horaEncerramento := match a.logTiming with | some t => t.horaEncerramento | none => none
    duracaoMin := match a.logTiming with | some t => t.duracaoMin | none => none
    reboots := match a.logEvents with | some e => e.reboots | none => 0
    errosLog := match a.logEvents with | some e => e.erros | none => 0
    alertasMesario := match a.logEvents with | some e => e.alertasMesario | none => 0
    votosLog := match a.logEvents with | some e => e.votosComputados | none => 0
    substituicoes := match a.logEvents with | some e => e.substituicoes | none => 0
    isReserva := tipoUrna == some "reservaSecao"
    hasIssues := decide (0 < a.issues.length)
    nIssues := a.issues.length }

/-- The votos rows a section compile appends (empty when the ballot
failed to decode, since the loop is guarded by bu_obj). -/
def sectionVotoRows (a : AnalysisResult) : List VotoRow :=
  match a.buObj with
  | some bu => votoRowsOf (secaoIdOf a) bu
  | none => []

/-- The totais_cargo rows a section compile appends. -/
def sectionTotaisRows (a : AnalysisResult) : List TotaisRow :=
  match a.buObj with
  | some bu => totaisRowsOf (secaoIdOf a) bu
  | none => []

/-- The issues rows of a section, numbered by nextval from the
current sequence value. -/
def sectionIssueRows (sid : String) (seq : Nat) (issues : List IssueData) : List IssueRow :=
  (issues.enum.map fun p =>
    ⟨seq + p.1 + 1, sid, p.2.codigo, p.2.severidade, p.2.descricao, p.2.baseLegal, p.2.detalhes⟩)

/-- DuckDBStore._process_section (duckdb_store.py lines 251-359):
upsert the secoes row (INSERT OR REPLACE), then append the issues
rows (consuming issue_seq values), the votos rows and the
totais_cargo rows (plain INSERTs). -/
def processSection (db : Store) (a : AnalysisResult) : Store :=
  let sid := secaoIdOf a
  { secoes := upsertSecao db.secoes (secaoRowOf a)
    votos := db.votos ++ sectionVotoRows a
    issues := db.issues ++ sectionIssueRows sid db.issueSeq a.issues
    totais := db.totais ++ sectionTotaisRows a
    issueSeq := db.issueSeq + a.issues.length }

/-- One already-parsed section of rebuild_parallel.py parse_section:
the rows are precomputed in the worker; error items are dropped by
insert_batch before this point. -/
structure ParsedSection where
  secaoId : String
  secao : SecaoRow
  issues : List IssueData
  votos : List VotoRow
  totais : List TotaisRow

/-- rebuild_parallel.insert_batch (lines 159-200): executemany
INSERT OR REPLACE of the secoes rows in order, then plain executemany
INSERTs of the issues (numbered from issue_seq), votos and
totais_cargo rows. -/
def insertBatch (db : Store) (batch : List ParsedSection) : Store :=
  let allIssues := (batch.map fun it => it.issues.map fun iss => (it.secaoId, iss)).flatten
  { secoes := batch.foldl (fun rs it => upsertSecao rs it.secao) db.secoes
    votos := db.votos ++ (batch.map fun it => it.votos).flatten
    issues := db.issues ++
      (allIssues.enum.map fun p =>
        ⟨db.issueSeq + p.1 + 1, p.2.1, p.2.2.codigo, p.2.2.severidade, p.2.2.descricao,
          p.2.2.baseLegal, p.2.2.detalhes⟩)
    totais := db.totais ++ (batch.map fun it => it.totais).flatten
    issueSeq := db.issueSeq + allIssues.length }

/-- One ballot file found on disk by find_bu_files: the SectionId
derived from its path and file name by _bu_file_to_secao_id (empty
when the path is malformed), and the analysis _process_section would
compute for it (none when the analysis raises). -/
structure DiskBU where
  id : String
  analysis : Option AnalysisResult

/-- The SELECT id FROM secoes load of build_incremental lines
181-186: the ExistingIdSet. -/
def existingIds (db : Store) : List String :=
  db.secoes.map fun s => s.id

/-- The new-files filter of build_incremental lines 193-197: keep a
disk file when its path-derived id is non-empty and not already in
the store. -/
def newDiskFiles (db : Store) (files : List DiskBU) : List DiskBU :=
  files.filter fun f => f.id != "" && !((existingIds db).contains f.id)

/-- One iteration of the build_incremental loop: a successful
analysis is compiled and counted under processed; a raising one is
caught and counted under errors. -/
def buildIncStep (acc : Store × Nat × Nat) (f : DiskBU) : Store × Nat × Nat :=
  match f.analysis with
  | some a => (processSection acc.1 a, acc.2.1 + 1, acc.2.2)
  | none => (acc.1, acc.2.1, acc.2.2 + 1)

/-- DuckDBStore.build_incremental (duckdb_store.py lines 173-230):
load the existing ids, filter the disk files down to the new ones,
and process each new file, counting processed sections and caught
per-file exceptions; the checkpoints do not change the data.
Returns the store and the (processed, errors) counters. -/
def buildIncremental (db : Store) (files : List DiskBU) : Store × Nat × Nat :=
  (newDiskFiles db files).foldl buildIncStep (db, 0, 0)

/-- The secoes row a disk file contributes (its analysis result run
through the row builder; the none case cannot arise for the files
build_incremental actually processes under the C2 hypotheses and
maps to the row of an empty analysis). -/
def fileRow (f : DiskBU) : SecaoRow :=
  match f.analysis with
  | some a => secaoRowOf a
  | none => secaoRowOf ⟨"", "", "", "", 0, none, none, none, none, []⟩

/-- The stand-alone contribution of one vote tuple to the per-office
accumulators. -/
def voteDelta (v : VotoTupla) : VoteTotals :=
  voteTotalsStep ⟨0, 0, 0, 0⟩ v

/-! ## Snapshot (scripts/download_and_build.py create_snapshot) -/

/-- The five filesystem steps of create_snapshot, in source order:
CHECKPOINT on the writer connection, unlink of a stale temporary
file, copy of the primary file to the temporary path, atomic rename
of the temporary path onto the published snapshot path, and unlink
of the write-ahead-log sidecar of the snapshot path. -/
inductive SnapOp
  | checkpoint
  | rmTmp
  | copyToTmp
  | renameTmp
  | rmWal
deriving DecidableEq, Repr

/-- The filesystem as create_snapshot sees it: committed is the
content version in the primary store file, pending the writes still
in the write-ahead log, tmp and snap the content at the temporary
and published snapshot paths, snapWal whether a WAL sidecar sits
next to the snapshot path. -/
structure SnapFs where
  committed : Nat
  pending : Nat
  tmp : Option Nat
  snap : Option Nat
  snapWal : Bool
deriving DecidableEq, Repr

/-- Effect of each step: checkpoint flushes the pending writes into
the primary file; the copy duplicates the flushed primary into the
temporary path; the rename atomically publishes the temporary file
at the snapshot path; the unlinks remove their targets. -/
def snapStep : SnapFs → SnapOp → SnapFs
  | fs, .checkpoint => { fs with committed := fs.committed + fs.pending, pending := 0 }
  | fs, .rmTmp => { fs with tmp := none }
  | fs, .copyToTmp => { fs with tmp := some fs.committed }
  | fs, .renameTmp => { fs with snap := fs.tmp, tmp := none }
  | fs, .rmWal => { fs with snapWal := false }

/-- The steps of create_snapshot in order. -/
def snapOps : List SnapOp :=
  [.checkpoint, .rmTmp, .copyToTmp, .renameTmp, .rmWal]

/-- The try body of create_snapshot over an oracle saying which
steps succeed: runs the steps in order until one raises; ok means
the body completed, error means an exception escaped the body at
the state reached so far.  Alongside the final state it returns the
performed steps and the value observed at the published snapshot
path after each performed step. -/
def snapTryLoop (oracle : SnapOp → Bool) :
    SnapFs → List SnapOp →
      Except (SnapFs × List SnapOp × List (Option Nat)) (SnapFs × List SnapOp × List (Option Nat))
  | fs, [] => .ok (fs, [], [])
  | fs, op :: rest =>
    if oracle op then
      match snapTryLoop oracle (snapStep fs op) rest with
      | .ok (f, ops, obs) => .ok (f, op :: ops, (snapStep fs op).snap :: obs)
      | .error (f, ops, obs) => .error (f, op :: ops, (snapStep fs op).snap :: obs)
    else .error (fs, [], [])

/-- create_snapshot (download_and_build.py lines 62-78): the try
body, with any exception caught by the except clause, logged as a
warning and dropped — the writer keeps running either way. -/
def createSnapshot (fs : SnapFs) (oracle : SnapOp → Bool) :
    SnapFs × List SnapOp × List (Option Nat) :=
  match snapTryLoop oracle fs snapOps with
  | .ok r => r
  | .error r => r

/-! ## Concrete inputs used by counterexamples and witnesses -/

/-- An analysis result for one section whose decoded ballot carries
one election, one office and a single nominal vote tuple of
quantity 7. -/
def cexAnalysis : AnalysisResult :=
  ⟨"ac", "m", "z", "s", 1,
    some ⟨"ac", .int 1, .int 2, .int 3, none, none, none, none, none, none, none, none,
      .oficial, .v1, none, none, none, 0, 0,
      [⟨1, 100, none, none, [⟨11, "Prefeito", 50, [⟨.nominal, 7, none, none, none, none⟩]⟩],
        none, none⟩], none⟩,
    none, none, none, []⟩

/-- An empty store. -/
def emptyStore : Store := ⟨[], [], [], [], 0⟩

/-- An analysis result with no decoded ballot, for section s. -/
def wAna1 : AnalysisResult := ⟨"ac", "m", "z", "s", 1, none, none, none, none, []⟩

/-- An analysis result with no decoded ballot, for section t. -/
def wAna2 : AnalysisResult := ⟨"ac", "m", "z", "t", 1, none, none, none, none, []⟩

/-- A store already holding the compiled section s. -/
def wDb : Store := processSection emptyStore wAna1

/-- A disk tree holding a ballot file for the already-compiled
section s and one for the new section t. -/
def wFiles : List DiskBU :=
  [⟨"1T/ac/m/z/s", some wAna1⟩, ⟨"1T/ac/m/z/t", some wAna2⟩]

/-! ## Stats algebra -/

theorem statsAddZero (a : Stats) : a.add ⟨0, 0, 0, 0⟩ = a := by
  cases a; simp [Stats.add]

theorem statsZeroAdd (a : Stats) : Stats.add ⟨0, 0, 0, 0⟩ a = a := by
  cases a; simp [Stats.add]

theorem statsAddAssoc (a b c : Stats) : (a.add b).add c = a.add (b.add c) := by
  cases a; cases b; cases c; simp [Stats.add]; omega

theorem statsAddComm (a b : Stats) : a.add b = b.add a := by
  cases a; cases b; simp [Stats.add]; omega

theorem statsErrOne (a : Stats) :
    (⟨a.downloaded, a.skipped, a.errors + 1, a.sectionsProcessed⟩ : Stats) = a.add ⟨0, 0, 1, 0⟩ := by
  cases a; simp [Stats.add]

theorem statsSecOne (a : Stats) :
    (⟨a.downloaded, a.skipped, a.errors, a.sectionsProcessed + 1⟩ : Stats) = a.add ⟨0, 0, 0, 1⟩ := by
  cases a; simp [Stats.add]

/-! ## Additivity of the orchestrator stats -/

theorem urnaFold_shift (fts : Option (List String)) (us : List RawEntry) (st : Stats) :
    urnaFold fts us st =
      (st.add (urnaFold fts us ⟨0, 0, 0, 0⟩).1, (urnaFold fts us ⟨0, 0, 0, 0⟩).2) := by
  induction us generalizing st with
  | nil => simp [urnaFold, statsAddZero]
  | cons u rest ih =>
    cases hdsf : downloadSectionFiles fts u.files ⟨0, 0, 0⟩ with
    | some r =>
      simp only [urnaFold, hdsf]
      rw [ih (st.add ⟨r.ok, r.skip, r.fail, 0⟩), ih (Stats.add ⟨0, 0, 0, 0⟩ ⟨r.ok, r.skip, r.fail, 0⟩)]
      simp [statsZeroAdd, statsAddAssoc]
    | none =>
      simp only [urnaFold, hdsf]
      simp [statsErrOne, statsZeroAdd]

theorem processOneSection_shift (fts : Option (List String)) (st : Stats) (sec : SectionSpec) :
    processOneSection fts st sec = st.add (processOneSection fts ⟨0, 0, 0, 0⟩ sec) := by
  cases hm : getSectionMeta sec.manifest with
  | none =>
    simp only [processOneSection, hm]
    simp [statsErrOne, statsZeroAdd]
  | some urnas =>
    simp only [processOneSection, hm]
    rw [urnaFold_shift fts urnas st]
    cases hdone : urnaFold fts urnas ⟨0, 0, 0, 0⟩ with
    | mk st0 done =>
      cases done with
      | true => simp [statsSecOne, statsZeroAdd, statsAddAssoc]
      | false => simp [statsZeroAdd]

theorem foldl_processOneSection_shift (fts : Option (List String))
    (secs : List SectionSpec) (st : Stats) :
    secs.foldl (processOneSection fts) st = st.add (downloadState fts secs) := by
  induction secs generalizing st with
  | nil => simp [downloadState, statsAddZero]
  | cons s rest ih =>
    simp only [downloadState, List.foldl_cons]
    rw [ih (processOneSection fts st s), ih (processOneSection fts ⟨0, 0, 0, 0⟩ s),
      processOneSection_shift fts st s, statsAddAssoc]

/-! ## Wait durations of the retry loops -/

theorem dlLoop_waits (att : Nat → Attempt) (fuel k : Nat) (dest : Option DFile)
    (p : Nat × Nat) (hp : p ∈ (dlLoop att fuel k dest).waits) :
    (att p.1 = .badStatus 429 ∧ p.2 = 2 ^ p.1) ∨
      ((att p.1).isNetErr = true ∧ p.2 = min (2 ^ p.1) 30) := by
  induction fuel generalizing k dest with
  | zero => simp [dlLoop] at hp
  | succ fuel ih =>
    cases ha : att k with
    | notFound => simp [dlLoop, ha] at hp
    | ok n => simp [dlLoop, ha] at hp
    | badStatus c =>
      by_cases hc : c = 429
      · subst hc
        simp only [dlLoop, ha, if_pos rfl] at hp
        rcases List.mem_cons.mp hp with h | h
        · subst h
          exact Or.inl ⟨ha, rfl⟩
        · exact ih (k + 1) dest h
      · by_cases hk : k = MAX_RETRIES - 1
        · simp [dlLoop, ha, if_neg hc, if_pos hk] at hp
        · simp only [dlLoop, ha, if_neg hc, if_neg hk] at hp
          exact ih (k + 1) none hp
    | netErr w =>
      simp only [dlLoop, ha] at hp
      rcases List.mem_cons.mp hp with h | h
      · subst h
        refine Or.inr ⟨?_, rfl⟩
        show (att k).isNetErr = true
        rw [ha]; rfl
      · exact ih (k + 1) none h
    | excOther w => simp [dlLoop, ha] at hp

theorem fjLoop_waits (att : Nat → Attempt) (fuel k : Nat)
    (p : Nat × Nat) (hp : p ∈ (fjLoop att fuel k).waits) :
    (att p.1 = .badStatus 429 ∧ p.2 = 2 ^ p.1) ∨
      ((att p.1).isNetErr = true ∧ p.2 = min (2 ^ p.1) 30) := by
  induction fuel generalizing k with
  | zero => simp [fjLoop] at hp
  | succ fuel ih =>
    cases ha : att k with
    | notFound => simp [fjLoop, ha] at hp
    | ok n => simp [fjLoop, ha] at hp
    | badStatus c =>
      by_cases hc : c = 429
      · subst hc
        simp only [fjLoop, ha, if_pos rfl] at hp
        rcases List.mem_cons.mp hp with h | h
        · subst h
          exact Or.inl ⟨ha, rfl⟩
        · exact ih (k + 1) h
      · by_cases hk : k = MAX_RETRIES - 1
        · simp [fjLoop, ha, if_neg hc, if_pos hk] at hp
        · simp only [fjLoop, ha, if_neg hc, if_neg hk] at hp
          exact ih (k + 1) hp
    | netErr w =>
      simp only [fjLoop, ha] at hp
      rcases List.mem_cons.mp hp with h | h
      · subst h
        refine Or.inr ⟨?_, rfl⟩
        show (att k).isNetErr = true
        rw [ha]; rfl
      · exact ih (k + 1) h
    | excOther w => simp [fjLoop, ha] at hp

/-! ## No partial file survives a failed download -/

theorem dlLoop_no_frag (att : Nat → Attempt) (fuel k : Nat) (dest : Option DFile)
    (h0 : isFrag dest = false) (hf : (dlLoop att fuel k dest).result ≠ some true) :
    isFrag (dlLoop att fuel k dest).dest = false := by
  induction fuel generalizing k dest with
  | zero => exact h0
  | succ fuel ih =>
    cases ha : att k with
    | notFound => simpa [dlLoop, ha] using h0
    | ok n => simp [dlLoop, ha] at hf
    | badStatus c =>
      by_cases hc : c = 429
      · simp only [dlLoop, ha, if_pos hc] at hf ⊢
        exact ih (k + 1) dest h0 hf
      · by_cases hk : k = MAX_RETRIES - 1
        · simp [dlLoop, ha, if_neg hc, if_pos hk, isFrag]
        · simp only [dlLoop, ha, if_neg hc, if_neg hk] at hf ⊢
          exact ih (k + 1) none rfl hf
    | netErr w =>
      simp only [dlLoop, ha] at hf ⊢
      exact ih (k + 1) none rfl hf
    | excOther w => simp [dlLoop, ha, isFrag]

theorem downloadFile_no_frag (se : Bool) (d0 : Option DFile) (att : Nat → Attempt)
    (h0 : isFrag d0 = false) (hf : (downloadFile se d0 att).result ≠ some true) :
    isFrag (downloadFile se d0 att).dest = false := by
  by_cases hse : (se && existsNonzero d0) = true
  · simp [downloadFile, hse] at hf
  · simp only [downloadFile, Bool.not_eq_true] at hse hf ⊢
    rw [hse] at hf ⊢
    simp only [if_neg Bool.false_ne_true] at hf ⊢
    exact dlLoop_no_frag att MAX_RETRIES 0 d0 h0 hf

/-! ## Stats sum helpers -/

theorem foldl_statsAdd_shift (l : List Stats) (z : Stats) :
    l.foldl Stats.add z = z.add (l.foldl Stats.add ⟨0, 0, 0, 0⟩) := by
  induction l generalizing z with
  | nil => simp [statsAddZero]
  | cons x xs ih =>
    simp only [List.foldl_cons]
    rw [ih (z.add x), ih (Stats.add ⟨0, 0, 0, 0⟩ x), statsZeroAdd, statsAddAssoc]

theorem sumFileStats_cons (v : RawEntry) (vs : List RawEntry) (rs : RawEntry → FileResults) :
    sumFileStats (v :: vs) rs = (fileStats (rs v)).add (sumFileStats vs rs) := by
  simp only [sumFileStats, List.map_cons, List.foldl_cons, statsZeroAdd]
  exact foldl_statsAdd_shift _ _

theorem urnaFold_raise (fts : Option (List String)) (us1 : List RawEntry) (u : RawEntry)
    (us2 : List RawEntry) (rs : RawEntry → FileResults) (st : Stats)
    (hus1 : ∀ v ∈ us1, downloadSectionFiles fts v.files ⟨0, 0, 0⟩ = some (rs v))
    (hu : downloadSectionFiles fts u.files ⟨0, 0, 0⟩ = none) :
    urnaFold fts (us1 ++ u :: us2) st =
      ((st.add (sumFileStats us1 rs)).add ⟨0, 0, 1, 0⟩, false) := by
  induction us1 generalizing st with
  | nil =>
    simp only [List.nil_append, urnaFold, hu]
    simp [sumFileStats, statsAddZero, statsErrOne]
  | cons v vs ih =>
    have hv := hus1 v (List.mem_cons_self v vs)
    simp only [List.cons_append, urnaFold, hv, List.append_eq]
    rw [ih (st.add ⟨(rs v).ok, (rs v).skip, (rs v).fail, 0⟩)
      (fun w hw => hus1 w (List.mem_cons_of_mem v hw)), sumFileStats_cons]
    have : (st.add (fileStats (rs v))).add (sumFileStats vs rs) =
        st.add ((fileStats (rs v)).add (sumFileStats vs rs)) := statsAddAssoc _ _ _
    simp only [fileStats] at this
    rw [this]
    simp [fileStats]

theorem downloadState_eraseIdx (fts : Option (List String)) (secs : List SectionSpec)
    (i : Nat) (hi : i < secs.length)
    (h : (secs.get ⟨i, hi⟩).manifest = ManifestFetch.raises) :
    downloadState fts secs = (downloadState fts (secs.eraseIdx i)).add ⟨0, 0, 1, 0⟩ := by
  induction secs generalizing i with
  | nil => exact absurd hi (by simp)
  | cons s rest ih =>
    cases i with
    | zero =>
      have hs : processOneSection fts ⟨0, 0, 0, 0⟩ s = ⟨0, 0, 1, 0⟩ := by
        simp only [List.get] at h
        simp [processOneSection, getSectionMeta, h]
      simp only [downloadState, List.foldl_cons, List.eraseIdx]
      rw [foldl_processOneSection_shift, hs, statsAddComm]
      rfl
    | succ i =>
      have hi2 : i < rest.length := by simpa using hi
      have h2 : (rest.get ⟨i, hi2⟩).manifest = ManifestFetch.raises := h
      simp only [downloadState, List.foldl_cons, List.eraseIdx]
      rw [foldl_processOneSection_shift, foldl_processOneSection_shift]
      rw [ih i hi2 h2, statsAddAssoc]

/-! ## Claim theorems -/

/-- C5: if processing one section raises an exception, the exception
is caught and that section contributes exactly one error increment,
while every sibling section is still processed and the returned stats
reflect all of them.  First conjunct: a section whose manifest fetch
raises contributes exactly one error — the stats of the whole run
equal the stats of the run without that section plus one error.
Second conjunct: a section whose manifest fetch succeeds but whose
download loop raises at urna u (after the urnas us1 completed with
results rs) yields the stats of the completed urnas plus exactly one
error for the caught exception, and no sections_processed
increment. -/
theorem spec_c5 (fts : Option (List String)) (secs : List SectionSpec)
    (i : Nat) (hi : i < secs.length)
    (hraise : (secs.get ⟨i, hi⟩).manifest = ManifestFetch.raises)
    (st : Stats) (es us1 : List RawEntry) (u : RawEntry) (us2 : List RawEntry)
    (rs : RawEntry → FileResults)
    (hsplit : es.filter (fun e => !(e.hash == "0" || e.hash == "")) = us1 ++ u :: us2)
    (hus1 : ∀ v ∈ us1, downloadSectionFiles fts v.files ⟨0, 0, 0⟩ = some (rs v))
    (hu : downloadSectionFiles fts u.files ⟨0, 0, 0⟩ = none) :
    downloadState fts secs = (downloadState fts (secs.eraseIdx i)).add ⟨0, 0, 1, 0⟩ ∧
    processOneSection fts st ⟨ManifestFetch.entries es⟩ =
      (st.add (sumFileStats us1 rs)).add ⟨0, 0, 1, 0⟩ := by
  constructor
  · exact downloadState_eraseIdx fts secs i hi hraise
  · simp only [processOneSection, getSectionMeta, hsplit]
    rw [urnaFold_raise fts us1 u us2 rs st hus1 hu]

/-- C5 witness: a run over one section whose manifest fetch raises
yields exactly one error, and a section with a single urna whose
download raises yields one error on top of zero completed stats. -/
theorem spec_c5_witness :
    downloadState none [⟨ManifestFetch.raises⟩] =
      (downloadState none (([⟨ManifestFetch.raises⟩] : List SectionSpec).eraseIdx 0)).add
        ⟨0, 0, 1, 0⟩ ∧
    processOneSection none ⟨0, 0, 0, 0⟩
        ⟨ManifestFetch.entries [⟨"h", [⟨"f", none, fun _ => Attempt.excOther none⟩]⟩]⟩ =
      ((Stats.add ⟨0, 0, 0, 0⟩
          (sumFileStats [] fun _ => ⟨0, 0, 0⟩)).add ⟨0, 0, 1, 0⟩) :=
  spec_c5 none [⟨ManifestFetch.raises⟩] 0 (by decide) rfl ⟨0, 0, 0, 0⟩
    [⟨"h", [⟨"f", none, fun _ => Attempt.excOther none⟩]⟩] []
    ⟨"h", [⟨"f", none, fun _ => Attempt.excOther none⟩]⟩ [] (fun _ => ⟨0, 0, 0⟩)
    rfl (by simp) rfl

/-- C7: a manifest entry whose content hash is the string "0" or
empty is discarded by get_section_meta: no such entry ever appears in
its returned list (first conjunct), and processing a section whose
raw manifest contains such an entry anywhere gives exactly the stats
of processing the manifest without it — so the entry produces no
download attempt and no error (second conjunct). -/
theorem spec_c7 (mf : ManifestFetch) (es : List RawEntry)
    (hmf : getSectionMeta mf = some es) (e : RawEntry) (he : e ∈ es)
    (fts : Option (List String)) (st : Stats) (pre post : List RawEntry) (e0 : RawEntry)
    (h0 : e0.hash = "0" ∨ e0.hash = "") :
    (e.hash ≠ "0" ∧ e.hash ≠ "") ∧
    processOneSection fts st ⟨ManifestFetch.entries (pre ++ e0 :: post)⟩ =
      processOneSection fts st ⟨ManifestFetch.entries (pre ++ post)⟩ := by
  constructor
  · cases mf with
    | raises => simp [getSectionMeta] at hmf
    | missing =>
      simp only [getSectionMeta, Option.some.injEq] at hmf
      subst hmf
      exact absurd he (by simp)
    | entries l =>
      simp only [getSectionMeta, Option.some.injEq] at hmf
      subst hmf
      have hpred := (List.mem_filter.mp he).2
      refine ⟨fun hz => ?_, fun hz => ?_⟩
      · rw [hz] at hpred; simp at hpred
      · rw [hz] at hpred; simp at hpred
  · have hdrop : (!(e0.hash == "0" || e0.hash == "")) = false := by
      rcases h0 with hz | hz <;> rw [hz] <;> rfl
    simp only [processOneSection, getSectionMeta, List.filter_append, List.filter_cons, hdrop]
    simp

/-- C7 witness: the surviving entry of a concrete manifest has a
non-null hash, and inserting a hash-"0" entry into a concrete
manifest leaves the processing stats unchanged. -/
theorem spec_c7_witness :
    ((⟨"abc", []⟩ : RawEntry).hash ≠ "0" ∧ (⟨"abc", []⟩ : RawEntry).hash ≠ "") ∧
    processOneSection none ⟨0, 0, 0, 0⟩
        ⟨ManifestFetch.entries ([] ++ (⟨"0", [⟨"f", none, fun _ => Attempt.notFound⟩]⟩ : RawEntry) :: [⟨"abc", []⟩])⟩ =
      processOneSection none ⟨0, 0, 0, 0⟩ ⟨ManifestFetch.entries ([] ++ [⟨"abc", []⟩])⟩ :=
  spec_c7 (ManifestFetch.entries [⟨"abc", []⟩]) [⟨"abc", []⟩] rfl ⟨"abc", []⟩
    (List.mem_singleton.mpr rfl) none ⟨0, 0, 0, 0⟩ [] [⟨"abc", []⟩]
    ⟨"0", [⟨"f", none, fun _ => Attempt.notFound⟩]⟩ (Or.inl rfl)

/-- C4 counterexample: the claim says a file whose URL returns 404
does not increment the errors stat returned by download_state and is
silently skipped.  In this run over one section whose manifest lists
one file and whose download gets a 404 on its first attempt,
download_file returns False after exactly one attempt,
download_section_files counts it under fail, and the final stats
carry errors = 1, not 0. -/
theorem spec_c4_counterexample :
    (downloadState none [⟨ManifestFetch.entries
        [⟨"h", [⟨"f.bu", none, fun _ => Attempt.notFound⟩]⟩]⟩]).errors = 1 ∧
    (downloadFile true none (fun _ => Attempt.notFound)).attemptsUsed = 1 := by
  decide

/-- C4 (amended): an HTTP 404 response is terminal in both
fetch_json and download_file — the call returns at once, after
exactly one further attempt, with no backoff wait — and a 404 JSON
fetch is not an error (a missing manifest yields a processed section
with no error increment); but a 404 file download returns False,
which download_section_files counts as a fail, so the file does
increment the errors stat of download_state rather than being
silently skipped. -/
theorem spec_c4 (att : Nat → Attempt) (fuel k : Nat) (dest : Option DFile)
    (h404 : att k = Attempt.notFound) (hfuel : 0 < fuel)
    (fts : Option (List String)) (st : Stats) (nm : String) (d0 : Option DFile)
    (hd0 : existsNonzero d0 = false) (hm : matchesTypes fts nm = true)
    (h404z : att 0 = Attempt.notFound) :
    dlLoop att fuel k dest = ⟨some false, dest, [], [], 1⟩ ∧
    fjLoop att fuel k = ⟨some none, [], 1⟩ ∧
    processOneSection fts st ⟨ManifestFetch.missing⟩ = st.add ⟨0, 0, 0, 1⟩ ∧
    downloadSectionFiles fts [⟨nm, d0, att⟩] ⟨0, 0, 0⟩ = some ⟨0, 0, 1⟩ := by
  cases fuel with
  | zero => exact absurd hfuel (by simp)
  | succ fuel =>
    refine ⟨by simp [dlLoop, h404], by simp [fjLoop, h404], ?_, ?_⟩
    · simp [processOneSection, getSectionMeta, urnaFold, statsSecOne]
    · have hdl : downloadFile true d0 att = dlLoop att MAX_RETRIES 0 d0 := by
        simp [downloadFile, hd0]
      have hrun : dlLoop att MAX_RETRIES 0 d0 = ⟨some false, d0, [], [], 1⟩ := by
        simp [MAX_RETRIES, dlLoop, h404z]
      simp [downloadSectionFiles, hm, hdl, hrun]

/-- C4 witness: the amended claim at a concrete 404 trace. -/
theorem spec_c4_witness :
    dlLoop (fun _ => Attempt.notFound) 10 3 none = ⟨some false, none, [], [], 1⟩ ∧
    fjLoop (fun _ => Attempt.notFound) 10 3 = ⟨some none, [], 1⟩ ∧
    processOneSection none ⟨0, 0, 0, 0⟩ ⟨ManifestFetch.missing⟩ =
      Stats.add ⟨0, 0, 0, 0⟩ ⟨0, 0, 0, 1⟩ ∧
    downloadSectionFiles none [⟨"f.bu", none, fun _ => Attempt.notFound⟩] ⟨0, 0, 0⟩ =
      some ⟨0, 0, 1⟩ :=
  spec_c4 (fun _ => Attempt.notFound) 10 3 none rfl (by decide) none ⟨0, 0, 0, 0⟩
    "f.bu" none rfl rfl rfl

/-- C8 counterexample: the claim says download_file streams to a
temporary destination, so the destination path itself never holds a
partially-written file.  In this run the first attempt is interrupted
by a read timeout after 5 bytes and the second attempt gets a 404:
the call fails, and during the call the destination path held the
partially written 5-byte fragment — the stream went straight to the
destination, not to a temporary path. -/
theorem spec_c8_counterexample :
    (downloadFile true none
        (fun j => if j = 0 then Attempt.netErr (some 5) else Attempt.notFound)).result =
      some false ∧
    some (DFile.frag 5) ∈ (downloadFile true none
        (fun j => if j = 0 then Attempt.netErr (some 5) else Attempt.notFound)).states := by
  decide

/-- C8 (amended): download_file streams straight to the destination
path — during a download the destination transiently holds a
partially written file — but every failure path deletes the partial
file, so whenever the call returns failure or raises (result is not
True), no partially written file remains at the destination, provided
the destination did not already hold one when the call began. -/
theorem spec_c8 (se : Bool) (d0 : Option DFile) (att : Nat → Attempt)
    (h0 : isFrag d0 = false) (hf : (downloadFile se d0 att).result ≠ some true) :
    isFrag (downloadFile se d0 att).dest = false :=
  downloadFile_no_frag se d0 att h0 hf

/-- C8 witness: the amended claim at a concrete failing trace (read
timeout after 7 bytes, then 404). -/
theorem spec_c8_witness :
    isFrag (downloadFile true none
        (fun j => if j = 0 then Attempt.netErr (some 7) else Attempt.notFound)).dest = false :=
  spec_c8 true none _ (by decide) (by decide)

/-- C9 counterexample: the claim says a 429 and a transient timeout
at attempt k both wait exactly min (2 ^ k) cap seconds for one fixed
cap.  The timeout branch of the source waits min (2 ^ k) 30, so at
attempt 5 it waits 30 seconds, which forces cap = 30; but the 429
branch waits an uncapped 2 ^ k, so at attempt 5 it waits 32 seconds,
and 32 is not min (2 ^ 5) 30: no single cap fits both branches. -/
theorem spec_c9_counterexample :
    (fetchJson (fun _ => Attempt.badStatus 429)).waits.get? 5 = some (5, 32) ∧
    (fetchJson (fun _ => Attempt.netErr none)).waits.get? 5 = some (5, 30) ∧
    (32 : Nat) ≠ min (2 ^ 5) 30 := by
  decide

/-- C9 (amended): every backoff wait of download_file and fetch_json
comes from a 429 or a ConnectError/ReadTimeout at that attempt; a 429
at attempt k waits exactly 2 ^ k seconds (uncapped), and a transient
timeout at attempt k waits exactly min (2 ^ k) 30 seconds, in both
calls. -/
theorem spec_c9 (att : Nat → Attempt) (se : Bool) (d0 : Option DFile) (p : Nat × Nat)
    (hp : p ∈ (downloadFile se d0 att).waits ∨ p ∈ (fetchJson att).waits) :
    (att p.1 = Attempt.badStatus 429 ∨ (att p.1).isNetErr = true) ∧
    (att p.1 = Attempt.badStatus 429 → p.2 = 2 ^ p.1) ∧
    ((att p.1).isNetErr = true → p.2 = min (2 ^ p.1) 30) := by
  have hbase :
      (att p.1 = Attempt.badStatus 429 ∧ p.2 = 2 ^ p.1) ∨
        ((att p.1).isNetErr = true ∧ p.2 = min (2 ^ p.1) 30) := by
    rcases hp with hp | hp
    · by_cases hse : (se && existsNonzero d0) = true
      · simp [downloadFile, hse] at hp
      · simp only [downloadFile, Bool.not_eq_true] at hse hp
        rw [hse] at hp
        simp only [if_neg Bool.false_ne_true] at hp
        exact dlLoop_waits att MAX_RETRIES 0 d0 p hp
    · exact fjLoop_waits att MAX_RETRIES 0 p hp
  rcases hbase with ⟨h1, h2⟩ | ⟨h1, h2⟩
  · refine ⟨Or.inl h1, fun _ => h2, fun hne => ?_⟩
    rw [h1] at hne
    exact absurd hne (by decide)
  · refine ⟨Or.inr h1, fun h429 => ?_, fun _ => h2⟩
    rw [h429] at h1
    exact absurd h1 (by decide)

/-- C9 witness: the amended claim at a concrete wait of a timeout
run of fetch_json. -/
theorem spec_c9_witness :
    ((0, 1) ∈ (downloadFile true none (fun _ => Attempt.netErr none)).waits ∨
      (0, 1) ∈ (fetchJson (fun _ => Attempt.netErr none)).waits) ∧
    (((fun _ => Attempt.netErr none) : Nat → Attempt) ((0, 1) : Nat × Nat).1 =
        Attempt.badStatus 429 ∨
      (((fun _ => Attempt.netErr none) : Nat → Attempt) ((0, 1) : Nat × Nat).1).isNetErr =
        true) :=
  ⟨Or.inr (by decide),
    (spec_c9 (fun _ => Attempt.netErr none) true none (0, 1) (Or.inr (by decide))).1⟩

/-! ## Upsert algebra -/

theorem upsertSecao_idem (rows : List SecaoRow) (r : SecaoRow) :
    upsertSecao (upsertSecao rows r) r = upsertSecao rows r := by
  simp only [upsertSecao, List.filter_append]
  have h1 : (List.filter (fun s => s.id != r.id) [r]) = [] := by
    simp [List.filter]
  have h2 : List.filter (fun s => s.id != r.id) (rows.filter fun s => s.id != r.id) =
      rows.filter fun s => s.id != r.id := by
    induction rows with
    | nil => rfl
    | cons s rest ih =>
      by_cases hs : (s.id != r.id) = true
      · simp [List.filter, hs, ih]
      · simp [List.filter, hs, ih]
  rw [h1, h2, List.append_nil]

theorem upsertSecao_count (rows : List SecaoRow) (r : SecaoRow) :
    ((upsertSecao rows r).filter fun s => s.id == r.id).length = 1 := by
  simp only [upsertSecao, List.filter_append]
  have h1 : (List.filter (fun s => s.id == r.id) [r]) = [r] := by
    simp [List.filter]
  have h2 : List.filter (fun s => s.id == r.id) (rows.filter fun s => s.id != r.id) = [] := by
    induction rows with
    | nil => rfl
    | cons s rest ih =>
      by_cases hs : (s.id == r.id) = true
      · simp [List.filter, bne, hs, ih]
      · simp [List.filter, bne, hs, ih]
  rw [h1, h2, List.nil_append, List.length_singleton]

theorem upsertSecao_fresh (rows : List SecaoRow) (r : SecaoRow)
    (h : ∀ s ∈ rows, s.id ≠ r.id) :
    upsertSecao rows r = rows ++ [r] := by
  simp only [upsertSecao]
  congr 1
  induction rows with
  | nil => rfl
  | cons s rest ih =>
    have hs : (s.id != r.id) = true := by
      simpa [bne] using h s (List.mem_cons_self s rest)
    simp [List.filter, hs]
    intro t ht
    exact h t (List.mem_cons_of_mem s ht)

/-! ## Claim C1 -/

/-- C1 counterexample: the claim says compiling the same ballot
twice leaves the persisted vote-tuple rows the same set as after one
compile.  Compiling cexAnalysis (one nominal vote tuple) twice into
an empty store leaves two votos rows where one compile leaves one:
the votos INSERT is a plain append, not an upsert, so the second
compile duplicates the vote-tuple rows. -/
theorem spec_c1_counterexample :
    ((processSection emptyStore cexAnalysis).votos).length = 1 ∧
    ((processSection (processSection emptyStore cexAnalysis) cexAnalysis).votos).length = 2 ∧
    (processSection (processSection emptyStore cexAnalysis) cexAnalysis).votos ≠
      (processSection emptyStore cexAnalysis).votos := by
  refine ⟨by decide, by decide, fun h => ?_⟩
  have h2 : ((processSection (processSection emptyStore cexAnalysis) cexAnalysis).votos).length
      = 2 := by decide
  rw [h] at h2
  have h1 : ((processSection emptyStore cexAnalysis).votos).length = 1 := by decide
  rw [h1] at h2
  exact absurd h2 (by decide)

/-- C1 (amended): the secoes half of the upsert is idempotent —
compiling the same analysis twice leaves the secoes table exactly as
after one compile, with exactly one row carrying that SectionId —
but the vote-tuple rows are plain INSERTs: the second compile
appends the full set of vote rows again (and insert_batch of
rebuild_parallel behaves the same way).  Deduplication therefore
rests on the ExistingIdSet guard, not on the inserts. -/
theorem spec_c1 (db : Store) (a : AnalysisResult) (it : ParsedSection) :
    (processSection (processSection db a) a).secoes = (processSection db a).secoes ∧
    ((processSection db a).secoes.filter fun s => s.id == secaoIdOf a).length = 1 ∧
    (processSection (processSection db a) a).votos =
      (processSection db a).votos ++ sectionVotoRows a ∧
    (insertBatch (insertBatch db [it]) [it]).secoes = (insertBatch db [it]).secoes ∧
    (insertBatch (insertBatch db [it]) [it]).votos = (insertBatch db [it]).votos ++ it.votos := by
  refine ⟨?_, ?_, rfl, ?_, ?_⟩
  · simp only [processSection]
    exact upsertSecao_idem db.secoes (secaoRowOf a)
  · exact upsertSecao_count db.secoes (secaoRowOf a)
  · simp only [insertBatch, List.foldl]
    exact upsertSecao_idem db.secoes it.secao
  · simp [insertBatch]

/-! ## Claim C6 -/

/-- C6 counterexample: the claim says decoding is a pure function of
the input bytes, with no dependence on the file name.  The same
bytes decoded under the names a.bu and a-bu.dat produce records
differing in their detected schema generation, because
BUParser.parse derives the spec version from the file name. -/
theorem spec_c6_counterexample :
    (parse "a.bu" [48, 2, 48, 0]).map BoletimUrna.specVersion = some SpecVersion.v1 ∧
    (parse "a-bu.dat" [48, 2, 48, 0]).map BoletimUrna.specVersion = some SpecVersion.v2 ∧
    parse "a.bu" [48, 2, 48, 0] ≠ parse "a-bu.dat" [48, 2, 48, 0] := by
  refine ⟨by decide, by decide, fun h => ?_⟩
  have h1 : (parse "a.bu" [48, 2, 48, 0]).map BoletimUrna.specVersion
      = some SpecVersion.v1 := by decide
  rw [h] at h1
  have h2 : (parse "a-bu.dat" [48, 2, 48, 0]).map BoletimUrna.specVersion
      = some SpecVersion.v2 := by decide
  rw [h1] at h2
  exact absurd h2 (by decide)

/-- C6 (amended): the decoder is a deterministic function of the
file name and the file bytes — the name enters only through
detect_spec_version — so two files with identical bytes whose names
detect the same schema generation decode to identical records. -/
theorem spec_c6 (n1 n2 : String) (raw : List Nat)
    (h : detectSpecVersion n1 = detectSpecVersion n2) :
    parse n1 raw = parse n2 raw := by
  simp only [parse, h]

/-- C6 witness: two different names of the same generation give
identical parses of the same bytes. -/
theorem spec_c6_witness :
    parse "x.bu" [48, 2, 48, 0] = parse "y.rdv" [48, 2, 48, 0] :=
  spec_c6 "x.bu" "y.rdv" [48, 2, 48, 0] (by decide)

/-! ## Vote totals algebra and claim C10 -/

theorem vtAddZero (a : VoteTotals) : a.add ⟨0, 0, 0, 0⟩ = a := by
  cases a; simp [VoteTotals.add]

theorem vtZeroAdd (a : VoteTotals) : VoteTotals.add ⟨0, 0, 0, 0⟩ a = a := by
  cases a; simp [VoteTotals.add]

theorem vtAddAssoc (a b c : VoteTotals) : (a.add b).add c = a.add (b.add c) := by
  cases a; cases b; cases c; simp [VoteTotals.add]; omega

theorem voteTotalsStep_add (z : VoteTotals) (v : VotoTupla) :
    voteTotalsStep z v = z.add (voteDelta v) := by
  cases z with
  | mk n b nu l =>
    cases hv : v.tipoVoto <;>
      simp [voteTotalsStep, voteDelta, TipoVoto.value, hv, VoteTotals.add]

theorem cargoVoteTotals_shift (l : List VotoTupla) (z : VoteTotals) :
    l.foldl voteTotalsStep z = z.add (cargoVoteTotals l) := by
  induction l generalizing z with
  | nil => simp [cargoVoteTotals, vtAddZero]
  | cons v vs ih =>
    simp only [cargoVoteTotals, List.foldl_cons]
    rw [voteTotalsStep_add, ih (z.add (voteDelta v)),
      ih (voteTotalsStep ⟨0, 0, 0, 0⟩ v), voteTotalsStep_add, vtZeroAdd,
      vtAddAssoc]

theorem cargoVoteTotals_append (l1 l2 : List VotoTupla) :
    cargoVoteTotals (l1 ++ l2) = (cargoVoteTotals l1).add (cargoVoteTotals l2) := by
  simp only [cargoVoteTotals, List.foldl_append]
  rw [cargoVoteTotals_shift l2 (List.foldl voteTotalsStep ⟨0, 0, 0, 0⟩ l1)]
  rfl

theorem cargoVoteTotals_cons (v : VotoTupla) (l : List VotoTupla) :
    cargoVoteTotals (v :: l) = (voteDelta v).add (cargoVoteTotals l) := by
  simp only [cargoVoteTotals, List.foldl_cons]
  rw [voteTotalsStep_add, vtZeroAdd, cargoVoteTotals_shift]
  rfl

theorem tipoVotoMapGet_unknown (x : AsnValue) (h : isKnownTipoVoto x = false) :
    tipoVotoMapGet x = TipoVoto.nominal := by
  cases x with
  | str s =>
    simp only [isKnownTipoVoto, Bool.or_eq_false_iff, decide_eq_false_iff_not] at h
    simp [tipoVotoMapGet, h.1.1.1.1, h.1.1.1.2, h.1.1.2, h.1.2, h.2]
  | int n =>
    simp only [isKnownTipoVoto, Bool.or_eq_false_iff, decide_eq_false_iff_not] at h
    simp [tipoVotoMapGet, h.1.1.1.1, h.1.1.1.2, h.1.1.2, h.1.2, h.2]
  | bytes bs => rfl
  | dict fs => rfl
  | tup a b => rfl
  | arr vs => rfl

/-- C10: a vote-kind tag that is not one of the five symbolic names
or the numeric codes 1 through 5 decodes to a NOMINAL vote tuple:
the tuple is not rejected (it stays in the votos list of its office)
and carries no unknown marker, so its quantity joins the nominais
accumulator of the per-office totals the store computes, leaving
brancos, nulos and legenda untouched. -/
theorem spec_c10 (vv : AsnValue)
    (h : isKnownTipoVoto (unwrapChoiceTag (asnGetD vv "tipoVoto" (.str "nominal"))) = false)
    (comparecimento : Int) (totais : AsnValue)
    (hin : vv ∈ asnArr (asnGetD totais "votosVotaveis" (.arr [])))
    (pre post : List VotoTupla) :
    (parseVotoTupla vv).tipoVoto = TipoVoto.nominal ∧
    parseVotoTupla vv ∈ (parseResultadoCargo comparecimento totais).votos ∧
    cargoVoteTotals (pre ++ parseVotoTupla vv :: post) =
      ⟨(cargoVoteTotals (pre ++ post)).nominais + (parseVotoTupla vv).quantidade,
        (cargoVoteTotals (pre ++ post)).brancos,
        (cargoVoteTotals (pre ++ post)).nulos,
        (cargoVoteTotals (pre ++ post)).legenda⟩ := by
  have htv : (parseVotoTupla vv).tipoVoto = TipoVoto.nominal := by
    simp only [parseVotoTupla]
    exact tipoVotoMapGet_unknown _ h
  refine ⟨htv, ?_, ?_⟩
  · simp only [parseResultadoCargo]
    exact List.mem_map_of_mem parseVotoTupla hin
  · have hdelta : voteDelta (parseVotoTupla vv) = ⟨(parseVotoTupla vv).quantidade, 0, 0, 0⟩ := by
      simp [voteDelta, voteTotalsStep, TipoVoto.value, htv]
    rw [cargoVoteTotals_append, cargoVoteTotals_cons, hdelta, cargoVoteTotals_append]
    cases cargoVoteTotals pre with
    | mk n b nu l =>
      cases cargoVoteTotals post with
      | mk n2 b2 nu2 l2 =>
        simp [VoteTotals.add]
        omega

/-- C10 witness: a concrete vote dict with the unknown tag "volto"
and quantity 3 decodes as a nominal tuple, stays in its office list,
and adds 3 to nominais. -/
theorem spec_c10_witness :
    (parseVotoTupla (.dict [("tipoVoto", .str "volto"), ("quantidadeVotos", .int 3)])).tipoVoto =
      TipoVoto.nominal ∧
    parseVotoTupla (.dict [("tipoVoto", .str "volto"), ("quantidadeVotos", .int 3)]) ∈
      (parseResultadoCargo 0
        (.dict [("votosVotaveis",
          .arr [.dict [("tipoVoto", .str "volto"), ("quantidadeVotos", .int 3)]])])).votos ∧
    cargoVoteTotals ([] ++
        parseVotoTupla (.dict [("tipoVoto", .str "volto"), ("quantidadeVotos", .int 3)]) :: []) =
      ⟨(cargoVoteTotals ([] ++ [])).nominais +
          (parseVotoTupla (.dict [("tipoVoto", .str "volto"),
            ("quantidadeVotos", .int 3)])).quantidade,
        (cargoVoteTotals ([] ++ [])).brancos,
        (cargoVoteTotals ([] ++ [])).nulos,
        (cargoVoteTotals ([] ++ [])).legenda⟩ :=
  spec_c10 (.dict [("tipoVoto", .str "volto"), ("quantidadeVotos", .int 3)]) (by decide) 0
    (.dict [("votosVotaveis",
      .arr [.dict [("tipoVoto", .str "volto"), ("quantidadeVotos", .int 3)]])])
    (List.mem_singleton.mpr rfl) [] []

/-! ## Claim C2 -/

theorem buildInc_fold (files : List DiskBU) (st : Store) (p e : Nat)
    (hsome : ∀ f ∈ files, f.analysis.isSome = true)
    (hagree : ∀ f ∈ files, ∀ a, f.analysis = some a → secaoIdOf a = f.id)
    (hfresh : ∀ f ∈ files, ∀ s ∈ st.secoes, s.id ≠ f.id)
    (hnd : (files.map fun f => f.id).Nodup) :
    (files.foldl buildIncStep (st, p, e)).1.secoes = st.secoes ++ files.map fileRow ∧
    (files.foldl buildIncStep (st, p, e)).2.1 = p + files.length ∧
    (files.foldl buildIncStep (st, p, e)).2.2 = e := by
  induction files generalizing st p e with
  | nil => simp
  | cons f rest ih =>
    obtain ⟨a, ha⟩ := Option.isSome_iff_exists.mp (hsome f (List.mem_cons_self f rest))
    have hid : (secaoRowOf a).id = f.id := hagree f (List.mem_cons_self f rest) a ha
    have hsec : (processSection st a).secoes = st.secoes ++ [secaoRowOf a] := by
      simp only [processSection]
      refine upsertSecao_fresh st.secoes (secaoRowOf a) fun s hs => ?_
      rw [hid]
      exact hfresh f (List.mem_cons_self f rest) s hs
    have hnd2 : (∀ x ∈ rest, ¬x.id = f.id) ∧ (List.map (fun f => f.id) rest).Nodup := by
      simpa using hnd
    have hfresh2 : ∀ g ∈ rest, ∀ s ∈ (processSection st a).secoes, s.id ≠ g.id := by
      intro g hg s hs
      rw [hsec] at hs
      rcases List.mem_append.mp hs with hs | hs
      · exact hfresh g (List.mem_cons_of_mem f hg) s hs
      · have hsid : s = secaoRowOf a := List.mem_singleton.mp hs
        subst hsid
        rw [hid]
        exact fun heq => hnd2.1 g hg heq.symm
    have step : buildIncStep (st, p, e) f = (processSection st a, p + 1, e) := by
      simp [buildIncStep, ha]
    obtain ⟨h1, h2, h3⟩ := ih (processSection st a) (p + 1) e
      (fun g hg => hsome g (List.mem_cons_of_mem f hg))
      (fun g hg => hagree g (List.mem_cons_of_mem f hg)) hfresh2 hnd2.2
    rw [List.foldl_cons, step]
    refine ⟨?_, ?_, h3⟩
    · rw [h1, hsec, List.append_assoc]
      have hf : fileRow f = secaoRowOf a := by simp [fileRow, ha]
      simp [hf]
    · rw [h2]
      simp [List.length_cons]
      omega

/-- C2: a fresh incremental run against a store with K compiled
sections and a disk tree holding files for those K sections plus new
files with fresh, distinct SectionIds — each well-formed, its
path-derived id agreeing with its analysis — compiles exactly the
new files: the resulting secoes table is the K untouched original
rows followed by one new row per new file, the processed counter
equals the number of new files, and no errors occur.  Files whose id
is already in the reloaded ExistingIdSet are filtered out before any
processing. -/
theorem spec_c2 (db : Store) (files : List DiskBU)
    (hsome : ∀ f ∈ newDiskFiles db files, f.analysis.isSome = true)
    (hagree : ∀ f ∈ newDiskFiles db files, ∀ a, f.analysis = some a → secaoIdOf a = f.id)
    (hnd : ((newDiskFiles db files).map fun f => f.id).Nodup) :
    (buildIncremental db files).1.secoes = db.secoes ++ (newDiskFiles db files).map fileRow ∧
    (buildIncremental db files).2.1 = (newDiskFiles db files).length ∧
    (buildIncremental db files).2.2 = 0 := by
  have hfresh : ∀ f ∈ newDiskFiles db files, ∀ s ∈ db.secoes, s.id ≠ f.id := by
    intro f hf s hs heq
    have hpred := (List.mem_filter.mp hf).2
    rw [Bool.and_eq_true] at hpred
    have h2 : ((existingIds db).contains f.id) = false := by simpa using hpred.2
    have hmem : f.id ∈ existingIds db := heq ▸ List.mem_map_of_mem (fun s => s.id) hs
    have hcont : (existingIds db).contains f.id = true := List.elem_iff.mpr hmem
    exact absurd (h2 ▸ hcont) Bool.false_ne_true
  obtain ⟨h1, h2, h3⟩ :=
    buildInc_fold (newDiskFiles db files) db 0 0 hsome hagree hfresh hnd
  refine ⟨?_, ?_, ?_⟩ <;> simp only [buildIncremental]
  · exact h1
  · rw [h2]; omega
  · exact h3

/-- C2 witness: a store holding section s and a disk tree holding
ballots for s and for the new section t compiles exactly the one new
row for t and leaves the s row untouched. -/
theorem spec_c2_witness :
    (buildIncremental wDb wFiles).1.secoes = wDb.secoes ++ (newDiskFiles wDb wFiles).map fileRow ∧
    (buildIncremental wDb wFiles).2.1 = (newDiskFiles wDb wFiles).length ∧
    (buildIncremental wDb wFiles).2.2 = 0 :=
  spec_c2 wDb wFiles (by decide)
    (by
      intro f hf a ha
      have hf2 : f ∈ [(⟨"1T/ac/m/z/t", some wAna2⟩ : DiskBU)] := hf
      have hfe := List.mem_singleton.mp hf2
      subst hfe
      injection ha with h
      subst h
      rfl)
    (by decide)

/-! ## Claim C3 -/

theorem snapObs (fs : SnapFs) (oracle : SnapOp → Bool) (x : Option Nat)
    (hx : x ∈ (createSnapshot fs oracle).2.2) :
    x = fs.snap ∨ x = some (fs.committed + fs.pending) := by
  by_cases h1 : oracle SnapOp.checkpoint = true
  · by_cases h2 : oracle SnapOp.rmTmp = true
    · by_cases h3 : oracle SnapOp.copyToTmp = true
      · by_cases h4 : oracle SnapOp.renameTmp = true
        · by_cases h5 : oracle SnapOp.rmWal = true
          · simp [createSnapshot, snapTryLoop, snapOps, snapStep, h1, h2, h3, h4, h5] at hx
            tauto
          · simp [createSnapshot, snapTryLoop, snapOps, snapStep, h1, h2, h3, h4, h5] at hx
            tauto
        · simp [createSnapshot, snapTryLoop, snapOps, snapStep, h1, h2, h3, h4] at hx
          tauto
      · simp [createSnapshot, snapTryLoop, snapOps, snapStep, h1, h2, h3] at hx
        tauto
    · simp [createSnapshot, snapTryLoop, snapOps, snapStep, h1, h2] at hx
      tauto
  · simp [createSnapshot, snapTryLoop, snapOps, h1] at hx

/-- C3: create_snapshot runs, in source order, the checkpoint of the
primary file, the copy of the primary to the temporary path, the
atomic rename of the temporary path onto the published snapshot
path, and the deletion of the snapshot WAL sidecar (with one extra
cleanup unlink of a stale temporary file between the first two); on
a fully successful run the published snapshot is exactly the
checkpointed primary content with no WAL sidecar left.  Any
exception raised at any step is caught — create_snapshot returns
normally with the state reached — and a reader of the published path
only ever observes the old complete snapshot or the new complete
one, never a half-written file. -/
theorem spec_c3 (fs : SnapFs) (oracle : SnapOp → Bool) (hok : ∀ op, oracle op = true)
    (fs2 : SnapFs) (orc2 : SnapOp → Bool) (r : SnapFs × List SnapOp × List (Option Nat))
    (herr : snapTryLoop orc2 fs2 snapOps = .error r)
    (fs3 : SnapFs) (orc3 : SnapOp → Bool) (x : Option Nat)
    (hx : x ∈ (createSnapshot fs3 orc3).2.2) :
    (createSnapshot fs oracle).2.1 = snapOps ∧
    List.Sublist [SnapOp.checkpoint, SnapOp.copyToTmp, SnapOp.renameTmp, SnapOp.rmWal]
      (createSnapshot fs oracle).2.1 ∧
    (createSnapshot fs oracle).1 =
      ⟨fs.committed + fs.pending, 0, none, some (fs.committed + fs.pending), false⟩ ∧
    createSnapshot fs2 orc2 = r ∧
    (x = fs3.snap ∨ x = some (fs3.committed + fs3.pending)) := by
  have hrun : createSnapshot fs oracle =
      (⟨fs.committed + fs.pending, 0, none, some (fs.committed + fs.pending), false⟩, snapOps,
        [fs.snap, fs.snap, fs.snap, some (fs.committed + fs.pending),
          some (fs.committed + fs.pending)]) := by
    simp [createSnapshot, snapTryLoop, snapOps, snapStep, hok]
  have hsub : List.Sublist
      [SnapOp.checkpoint, SnapOp.copyToTmp, SnapOp.renameTmp, SnapOp.rmWal] snapOps :=
    List.Sublist.cons₂ _ (List.Sublist.cons _
      (List.Sublist.cons₂ _ (List.Sublist.cons₂ _ (List.Sublist.cons₂ _ List.Sublist.slnil))))
  refine ⟨by rw [hrun], by rw [hrun]; exact hsub, by rw [hrun], ?_, snapObs fs3 orc3 x hx⟩
  simp only [createSnapshot, herr]

/-- C3 witness: a fully successful snapshot of a writer holding
committed content 3 with 4 pending writes, a failing snapshot whose
exception is absorbed, and an observation of the published path. -/
theorem spec_c3_witness :
    (createSnapshot ⟨3, 4, none, some 9, true⟩ (fun _ => true)).2.1 = snapOps ∧
    List.Sublist [SnapOp.checkpoint, SnapOp.copyToTmp, SnapOp.renameTmp, SnapOp.rmWal]
      (createSnapshot ⟨3, 4, none, some 9, true⟩ (fun _ => true)).2.1 ∧
    (createSnapshot ⟨3, 4, none, some 9, true⟩ (fun _ => true)).1 =
      ⟨7, 0, none, some 7, false⟩ ∧
    createSnapshot ⟨1, 2, none, none, false⟩ (fun _ => false) =
      (⟨1, 2, none, none, false⟩, [], []) ∧
    (some 7 = (some 9 : Option Nat) ∨ (some 7 : Option Nat) = some (3 + 4)) :=
  spec_c3 ⟨3, 4, none, some 9, true⟩ (fun _ => true) (fun _ => rfl)
    ⟨1, 2, none, none, false⟩ (fun _ => false) (⟨1, 2, none, none, false⟩, [], []) rfl
    ⟨3, 4, none, some 9, true⟩ (fun _ => true) (some 7) (by decide)

end DataUrnas
